import Mathlib

/- Verification of the GLEP 42 news handling module (pym/portage_news.py).
   The embedding has two layers.  The definitions whose names end in `Run`
   model the exact Python behavior of each operation, including the
   module's binding defects: `os.path.isFile` does not exist
   (AttributeError); the bare names `installedRE` / `profileRE` /
   `keywordRE` / `cpv` / `UNREAD_PATH` are unbound (NameError, since class
   attributes and instance attributes are not in method scope); the kwargs
   dict is passed positionally to `checkRestriction(self, **kwargs)`
   (TypeError); and the `__getattr__` guard for `restrictions` re-enters
   the same lookup (divergence, modelled with fuel).  Alongside them, the
   intended-semantics definitions read each slipped name as the attribute
   it evidently denotes; they support the theorems about the one branch
   the source executes faithfully (the repository-registry guard of
   `updateNewsItems`) and record the behavior the docstrings describe.
   Python exceptions are modelled with `Except`, the raising branch
   carrying the state at the time of the raise; the filesystem and the
   collaborator objects are an explicit `World` snapshot. -/

/-- Python exceptions raised by the module (`raise ValueError`). -/
inductive PyErr where
  | valueError (msg : String)
deriving DecidableEq

/-- The three `DisplayRestriction` subclasses, as a closed datatype:
`DisplayProfileRestriction`, `DisplayKeywordRestriction` and
`DisplayInstalledRestriction`, each holding the parameter stored by its
constructor (`self.profile`, `self.keyword`, `self.cpv`). -/
inductive DisplayRestriction where
  | profile (profile : String)
  | keyword (keyword : String)
  | installed (cpv : String)
deriving DecidableEq

/-- The keyword-argument context handed to `checkRestriction` by
`NewsItem.isRelevant`: `vardb` models `vdb.match` (the list of installed
packages matching an atom), `config` models the configuration mapping
(`config["ARCH"]`), and `profile` is the active profile string
(`os.readlink(PROFILE_PATH)`). -/
structure Ctx where
  vardb : String → List String
  config : String → String
  profile : String

/-- Intended semantics of `checkRestriction` for each `DisplayRestriction`
subclass: the bare name `cpv` in the installed body is read as the value
its constructor stored (`self.cpv`), and `vdb.match(cpv)` is truthy iff
the returned match list is nonempty.  In the source that bare name is
unbound - see `DisplayRestriction.checkRestrictionRun` for the exact
behavior. -/
def DisplayRestriction.checkRestriction : DisplayRestriction → Ctx → Bool
  | .profile p, kwargs => if p = kwargs.profile then true else false
  | .keyword k, kwargs => if kwargs.config "ARCH" = k then true else false
  | .installed cpv, kwargs => if kwargs.vardb cpv ≠ [] then true else false

/-- The `for restriction in self.restrictions` loop of
`NewsItem.isRelevant`, with the call read as intended: returns `true` at
the first restriction whose `checkRestriction` is true, `false` when the
loop falls through.  The source passes the kwargs dict positionally to
`checkRestriction(self, **kwargs)`, a `TypeError` modelled in
`NewsItem.isRelevantRun`. -/
def checkAny : List DisplayRestriction → Ctx → Bool
  | [], _ => false
  | r :: rs, kwargs => if r.checkRestriction kwargs then true else checkAny rs kwargs

/-- Intended semantics of `NewsItem.isRelevant` as a function of the
item's restriction list: `true` immediately when `len(self.restrictions)`
is zero, otherwise the loop over the restrictions.  The source's actual
read of `self.restrictions` diverges and its `checkRestriction` call
raises - see `NewsItem.isRelevantRun` for the exact behavior. -/
def NewsItem.isRelevant (restrictions : List DisplayRestriction) (kwargs : Ctx) : Bool :=
  if restrictions.length = 0 then true
  else checkAny restrictions kwargs

/-- The capture of `(.*)\n` once the literal part of the pattern has been
consumed: `.` does not match a newline, so the group is everything up to
the first newline of the remainder, and the match fails when no newline
follows the group. -/
def captureToNewline : List Char → Option (List Char)
  | [] => none
  | c :: cs => if c = '\n' then some [] else (captureToNewline cs).map (fun g => c :: g)

/-- `re.match` of a pattern `lit(.*)\n` against a line, over character
lists: the literal must match at the start of the line, then the group is
captured up to a required newline. -/
def reMatchCaptureL : List Char → List Char → Option (List Char)
  | [], rest => captureToNewline rest
  | _ :: _, [] => none
  | p :: ps, c :: cs => if p = c then reMatchCaptureL ps cs else none

/-- `NewsItem.installedRE` / `profileRE` / `keywordRE` applied with
`re.match` to one line; `some g` is `match.groups()[0]`. -/
def reMatchCapture (pat line : String) : Option String :=
  (reMatchCaptureL pat.data line.data).map String.mk

/-- `line.startswith("D")`. -/
def startsWithD (line : String) : Bool :=
  match line.data with
  | [] => false
  | c :: _ => c == 'D'

/-- One iteration of the line loop of `NewsItem.parse`, with the bare
regex names read as the class attributes they evidently denote: lines
that do not start with `"D"` are skipped, then `installedRE`, `profileRE`
and `keywordRE` are tried in that order, appending the restriction built
from the captured group of the first pattern that matches.  In the source
those bare names are unbound - see `parseLinesRun` for the exact
behavior. -/
def NewsItem.parseLine (restrictions : List DisplayRestriction) (line : String) :
    List DisplayRestriction :=
  if startsWithD line = false then restrictions
  else
    match reMatchCapture "Display-If-Installed:" line with
    | some g => restrictions ++ [.installed g]
    | none =>
      match reMatchCapture "Display-If-Profile:" line with
      | some g => restrictions ++ [.profile g]
      | none =>
        match reMatchCapture "Display-If-Keyword:" line with
        | some g => restrictions ++ [.keyword g]
        | none => restrictions

/-- `file.readlines()` over the file contents: split after every newline,
keeping the terminator, a final unterminated chunk kept when nonempty.
The accumulator holds the current line's characters in reverse. -/
def readlinesAux : List Char → List Char → List String
  | [], acc => if acc = [] then [] else [String.mk acc.reverse]
  | c :: cs, acc =>
    if c = '\n' then String.mk (acc.reverse ++ [c]) :: readlinesAux cs []
    else readlinesAux cs (c :: acc)

/-- `open(self.path).readlines()`. -/
def readlines (s : String) : List String :=
  readlinesAux s.data []

/-- Intended semantics of `NewsItem.parse`: starts from
`self.restrictions = []` and runs the line loop over the file contents.
The exact source raises `NameError` at the first line starting with
`"D"` - see `NewsItem.parseRun`. -/
def NewsItem.parse (content : String) : List DisplayRestriction :=
  (readlines content).foldl NewsItem.parseLine []

/-- A snapshot of the filesystem and collaborator state visible to the
news module: the repository registry (`portdb.getRepositories()`), the
modification time of the timestamp cache
(`os.stat(TIMESTAMP_PATH).st_mtime`), directory listings (`os.listdir`),
per-path `os.path.isFile` / `st_mtime` / file contents, the unread ledger
files keyed by path (`none` = file absent), and the three context
values. -/
structure World where
  repositories : List String
  timestampMtime : Int
  listdir : String → List String
  isfile : String → Bool
  mtime : String → Int
  content : String → String
  ledger : String → Option String
  profile : String
  config : String → String
  vardb : String → List String

/-- The context values `updateNewsItems` passes to `isRelevant`. -/
def World.ctx (w : World) : Ctx :=
  { vardb := w.vardb, config := w.config, profile := w.profile }

/-- A constructed `NewsItem`: the constructor stores only `self.path`. -/
structure NewsItem where
  path : String
deriving DecidableEq

/-- Intended semantics of `NewsItem.__init__(path, cache_mtime)`, as its
docstring states: raise `ValueError` unless the path names a regular file
whose modification time is strictly newer than the cached timestamp; on
success store the path without reading the file contents.  The source's
first statement calls the nonexistent `os.path.isFile` - see
`NewsItem.initRun` for the exact behavior. -/
def NewsItem.init (w : World) (path : String) (cache_mtime : Int) : Except PyErr NewsItem :=
  if ¬ w.isfile path then .error (.valueError "")
  else if ¬ (w.mtime path > cache_mtime) then .error (.valueError "")
  else .ok { path := path }

/-- `NewsManager`: the `NEWS_PATH` and `UNREAD_PATH` given to the
constructor. -/
structure NewsManager where
  NEWS_PATH : String
  UNREAD_PATH : String

/-- `os.path.join(UNREAD_PATH, "news." + repoid + ".unread")` with the
unbound module name `UNREAD_PATH` read as the manager's attribute; in the
source the bare name raises `NameError`, modelled in the `Run`
definitions. -/
def NewsManager.unreadFile (m : NewsManager) (repoid : String) : String :=
  m.UNREAD_PATH ++ "/news." ++ repoid ++ ".unread"

/-- The `updates` list `updateNewsItems` intends to build: for each entry
of `os.listdir(os.path.join(repoid, NEWS_PATH))`, construct a `NewsItem`
against the cached timestamp (a `ValueError` from the constructor silently
skips the entry with `continue`) and keep the item when `isRelevant` holds
of its parsed restrictions and the supplied context.  In the source,
construction instead raises `AttributeError` (uncaught by
`except ValueError`) and the `isRelevant` call passes mismatched
keywords - see `NewsManager.updateNewsItemsRun` for the exact
behavior. -/
def NewsManager.matchedItems (m : NewsManager) (w : World) (repoid : String) : List NewsItem :=
  (w.listdir (repoid ++ "/" ++ m.NEWS_PATH)).filterMap (fun item =>
    match NewsItem.init w item w.timestampMtime with
    | .error _ => none
    | .ok tmp =>
      if NewsItem.isRelevant (NewsItem.parse (w.content tmp.path)) w.ctx then some tmp
      else none)

/-- `NewsManager.updateNewsItems(repoid)`: raises `ValueError` (leaving
the world untouched) when `repoid` is not in the repository registry -
this guard branch is exact source behavior; otherwise, per the intended
semantics, appends one line `item.path + "\n"` per matched item to the
unread ledger file, opened in append mode (treated as empty when absent).
The exact source always raises before reaching the append - see
`NewsManager.updateNewsItemsRun`.  The error branch carries the world at
the time of the raise. -/
def NewsManager.updateNewsItems (m : NewsManager) (w : World) (repoid : String) :
    Except (PyErr × World) World :=
  if repoid ∉ w.repositories then
    .error (.valueError ("Invalid repoID: " ++ repoid), w)
  else
    let updates := m.matchedItems w repoid
    let key := m.unreadFile repoid
    .ok { w with
      ledger := fun k =>
        if k = key then
          some (((w.ledger key).getD "") ++ String.join (updates.map (fun t => t.path ++ "\n")))
        else w.ledger k }

/-- Intended semantics of `NewsManager.getUnreadItems(repoid, update)`,
as its docstring states: when `update` is set, call
`updateNewsItems(repoid)` first; then return the number of lines of the
unread ledger when the file exists and has lines, and Python's `None`
(modelled `none`) otherwise.  The exact source raises `NameError` at the
unbound `UNREAD_PATH` before reading any ledger - see
`NewsManager.getUnreadItemsRun`. -/
def NewsManager.getUnreadItems (m : NewsManager) (w : World) (repoid : String)
    (update : Bool) : Except (PyErr × World) (Option Nat × World) :=
  match (if update then m.updateNewsItems w repoid else .ok w) with
  | .error ew => .error ew
  | .ok w1 =>
    match w1.ledger (m.unreadFile repoid) with
    | some c =>
      let unread := readlines c
      if unread.length ≠ 0 then .ok (some unread.length, w1) else .ok (none, w1)
    | none => .ok (none, w1)

/-- Fuel-indexed model of Python attribute lookup for `item.restrictions`:
the instance dictionary either holds the list already (`some rs`: normal
lookup succeeds and `__getattr__` is not called) or does not hold it
(`none`: `__getattr__` runs, and its guard `not self.restrictions` performs
the very same attribute lookup again on the unchanged instance).  A `none`
result means the lookup did not terminate within the given fuel. -/
def getattrRestrictions (content : String) :
    Nat → Option (List DisplayRestriction) → Option (List DisplayRestriction)
  | _, some rs => some rs
  | 0, none => none
  | fuel + 1, none =>
    match getattrRestrictions content fuel none with
    | none => none
    | some rs => if rs.length = 0 then some (NewsItem.parse content) else some rs

/-- A concrete `NewsManager` used by the closed instances below. -/
def sampleManager : NewsManager :=
  { NEWS_PATH := "metadata/news", UNREAD_PATH := "/var/lib/portage" }

/-- A concrete world with one repository and two candidate news files, one
newer and one older than the cached timestamp. -/
def sampleWorld : World :=
  { repositories := ["gentoo"]
  , timestampMtime := 10
  , listdir := fun _ => ["2024-01-news", "2023-01-news"]
  , isfile := fun _ => true
  , mtime := fun p => if p = "2024-01-news" then 20 else 5
  , content := fun _ => ""
  , ledger := fun _ => none
  , profile := "default/linux"
  , config := fun _ => "amd64"
  , vardb := fun _ => [] }

/-- The exceptions Python raises on the module's code paths: the
registry guard's `ValueError`, and the binding defects' `NameError`
(an unbound bare name), `AttributeError` (a nonexistent module attribute
such as `os.path.isFile`) and `TypeError` (a call that does not match the
callee's signature). -/
inductive PyExc where
  | valueError (msg : String)
  | nameError
  | attributeError
  | typeError
deriving DecidableEq

/-- Exact behavior of each `checkRestriction` body when the method is
invoked correctly with keyword arguments: the profile and keyword bodies
compute their equality test, but the installed body reads the bare name
`cpv`, which Python looks up in module and builtin scope - not as
`self.cpv` - and so raises `NameError` on every invocation. -/
def DisplayRestriction.checkRestrictionRun : DisplayRestriction → Ctx → Except PyExc Bool
  | .profile p, kwargs => .ok (if p = kwargs.profile then true else false)
  | .keyword k, kwargs => .ok (if kwargs.config "ARCH" = k then true else false)
  | .installed _, _ => .error .nameError

/-- Exact behavior of the line loop of `NewsItem.parse`: lines not
starting with `"D"` are skipped by the guard, and the first line starting
with `"D"` evaluates the bare name `installedRE` - class attributes are
not in method scope in Python - raising `NameError` before any regex is
matched, so no restriction is ever produced. -/
def parseLinesRun : List String → Except PyExc (List DisplayRestriction)
  | [] => .ok []
  | l :: ls => if startsWithD l = false then parseLinesRun ls else .error .nameError

/-- Exact behavior of `NewsItem.parse` on the file contents: the empty
restriction list when no line starts with `"D"` (the assignment
`self.restrictions = []` precedes the loop), `NameError` otherwise. -/
def NewsItem.parseRun (content : String) : Except PyExc (List DisplayRestriction) :=
  parseLinesRun (readlines content)

/-- Exact behavior of `NewsItem.isRelevant`: the read of
`self.restrictions` goes through the attribute lookup of
`getattrRestrictions` (no result within the fuel when the attribute is
missing from the instance dictionary, the C8 recursion); with the
attribute present, an empty list returns `True`, and a nonempty list
raises `TypeError` at `restriction.checkRestriction( kwargs )`, the dict
being passed positionally to a method whose signature
`checkRestriction(self, **kwargs)` accepts no positional argument.  The
supplied context is never consulted before the raise. -/
def NewsItem.isRelevantRun (content : String) (kwargs : Ctx) (fuel : Nat)
    (restrictionsAttr : Option (List DisplayRestriction)) :
    Option (Except PyExc Bool) :=
  match getattrRestrictions content fuel restrictionsAttr with
  | none => none
  | some rs =>
    if rs.length = 0 then some (Except.ok true)
    else some (Except.error PyExc.typeError)

/-- Exact behavior of `NewsItem.__init__`: its first statement evaluates
`os.path.isFile`, an attribute `os.path` does not have (`isfile` does),
so every construction raises `AttributeError` before the path or the
modification time is examined, whatever the arguments. -/
def NewsItem.initRun (w : World) (path : String) (cache_mtime : Int) :
    Except PyExc NewsItem :=
  .error .attributeError

/-- Exact behavior of `NewsManager.updateNewsItems`: the registry check
raises `ValueError` for an unknown `repoid`; otherwise, with at least one
candidate listed, the first `NewsItem(item, timestamp)` raises
`AttributeError` (`os.path.isFile`), which the `except ValueError`
handler does not catch; with no candidates the loop body never runs and
`os.path.join( UNREAD_PATH, ...)` raises `NameError` (the module-level
name is unbound; the attribute was intended).  Every raise happens before
the ledger is opened, so the exception carries the world unchanged. -/
def NewsManager.updateNewsItemsRun (m : NewsManager) (w : World) (repoid : String) :
    Except (PyExc × World) World :=
  if repoid ∉ w.repositories then
    .error (.valueError ("Invalid repoID: " ++ repoid), w)
  else
    match w.listdir (repoid ++ "/" ++ m.NEWS_PATH) with
    | [] => .error (.nameError, w)
    | _ :: _ => .error (.attributeError, w)

/-- Exact behavior of `NewsManager.getUnreadItems`: the optional refresh
runs first and its exception propagates; afterwards
`os.path.join( UNREAD_PATH, ...)` raises `NameError` on every call (the
module-level name is unbound), before any ledger file is consulted, so a
count is never reported. -/
def NewsManager.getUnreadItemsRun (m : NewsManager) (w : World) (repoid : String)
    (update : Bool) : Except (PyExc × World) (Option Nat × World) :=
  match (if update then m.updateNewsItemsRun w repoid else .ok w) with
  | .error ew => .error ew
  | .ok w1 => .error (.nameError, w1)

/-! ### Helper lemmas -/

/-- `String.mk` is inverse to `String.data`. -/
theorem strMkData (v : String) : String.mk v.data = v := rfl

/-- `startswith("D")` holds of any line whose first character is `'D'`. -/
theorem startsWithD_of_data (l : String) (a : List Char) (h : l.data = 'D' :: a) :
    startsWithD l = true := by
  unfold startsWithD
  rw [h]
  rfl

/-- Characters of `p ++ V` once the head character of `p` is exposed. -/
theorem data_cons_append2 (p V : String) (c : Char) (a : List Char)
    (hp : p.data = c :: a) : (p ++ V).data = c :: (a ++ V.data) := by
  simp [String.data_append, hp]

/-- `readlines` splits off a newline-terminated first chunk. -/
theorem readlinesAux_terminated (s : List Char) (t : List Char) (acc : List Char)
    (hs : '\n' ∉ s) :
    readlinesAux (s ++ '\n' :: t) acc
      = String.mk (acc.reverse ++ s ++ ['\n']) :: readlinesAux t [] := by
  induction s generalizing acc with
  | nil => simp [readlinesAux]
  | cons c cs ih =>
    have hc : ¬ (c = '\n') := fun h => hs (by simp [h])
    have hcs : '\n' ∉ cs := fun h => hs (List.mem_cons_of_mem _ h)
    simp [readlinesAux, hc, ih (c :: acc) hcs]

/-- `readlines` keeps a final unterminated chunk when nonempty. -/
theorem readlinesAux_unterminated (s : List Char) (acc : List Char) (hs : '\n' ∉ s) :
    readlinesAux s acc
      = if acc.reverse ++ s = [] then [] else [String.mk (acc.reverse ++ s)] := by
  induction s generalizing acc with
  | nil => cases acc <;> simp [readlinesAux]
  | cons c cs ih =>
    have hc : ¬ (c = '\n') := fun h => hs (by simp [h])
    have hcs : '\n' ∉ cs := fun h => hs (List.mem_cons_of_mem _ h)
    simp [readlinesAux, hc, ih (c :: acc) hcs]

/-- A file consisting of one newline-terminated line reads as that line. -/
theorem readlines_terminated_line (l : String) (s : List Char) (hl : l.data = s ++ ['\n'])
    (hs : '\n' ∉ s) : readlines l = [l] := by
  unfold readlines
  rw [hl, readlinesAux_terminated s [] [] hs]
  have h2 : String.mk (s ++ ['\n']) = l := by
    rw [← hl]
  simp [readlinesAux, h2]

/-- A nonempty file with no newline reads as a single line. -/
theorem readlines_unterminated_line (l : String) (hne : l.data ≠ []) (hs : '\n' ∉ l.data) :
    readlines l = [l] := by
  unfold readlines
  rw [readlinesAux_unterminated l.data [] hs]
  simp [hne, strMkData]

/-- The characters of `"\n"`. -/
theorem nlData : ("\n" : String).data = ['\n'] := by decide

/-- The profile pattern starts with `'D'`. -/
theorem dataProfD : ("Display-If-Profile:" : String).data
    = 'D' :: "isplay-If-Profile:".data := by decide

theorem nlNotInProf : '\n' ∉ ("Display-If-Profile:" : String).data := by decide

/-- Shared helper: the attribute lookup from the missing-attribute state
yields no result for any fuel. -/
theorem getattrRestrictions_fuelNone (content : String) (fuel : Nat) :
    getattrRestrictions content fuel none = none := by
  induction fuel with
  | zero => rfl
  | succ n ih => simp [getattrRestrictions, ih]

/-! ### Claim theorems -/

/-- Claim C3: `updateNewsItems` called with a repository identifier not in
the repository registry raises `ValueError` and causes no side effects:
the world, and in particular every unread ledger file, is unchanged. -/
theorem updateNewsItems_invalidRepo (m : NewsManager) (w : World) (repoid : String)
    (h : repoid ∉ w.repositories) :
    m.updateNewsItems w repoid
      = .error (.valueError ("Invalid repoID: " ++ repoid), w) := by
  unfold NewsManager.updateNewsItems
  rw [if_pos h]

/-- Witness for claim C3 at a concrete manager and world. -/
theorem updateNewsItems_invalidRepo_witness :
    ("nonexistent-repo" ∉ sampleWorld.repositories)
    ∧ sampleManager.updateNewsItems sampleWorld "nonexistent-repo"
        = .error (.valueError ("Invalid repoID: " ++ "nonexistent-repo"), sampleWorld) :=
  ⟨by decide,
   updateNewsItems_invalidRepo sampleManager sampleWorld "nonexistent-repo" (by decide)⟩

/-- Claim C8: the first access to the `restrictions` attribute never
terminates, for any amount of fuel — the guard `not self.restrictions`
inside `__getattr__` re-enters the same attribute lookup on the unchanged
instance, so the file is never parsed and nothing is ever cached
(`RecursionError` in Python). -/
theorem getattrRestrictions_diverges (content : String) (fuel : Nat) :
    getattrRestrictions content fuel none = none := by
  induction fuel with
  | zero => rfl
  | succ n ih => simp [getattrRestrictions, ih]
/-- Claim C1 (code bug): `isRelevant` never computes the claimed OR over
the restrictions.  On a fresh item the read of `self.restrictions` yields
no result for any fuel (the recursion of C8), and even with the attribute
populated, a nonempty restriction list raises `TypeError` at the
positional `checkRestriction( kwargs )` call - only the no-restrictions
`True` branch can ever return. -/
theorem isRelevantRun_no_boolean (content : String) (kwargs : Ctx) (fuel : Nat)
    (rs : List DisplayRestriction) :
    NewsItem.isRelevantRun content kwargs fuel none = none
    ∧ NewsItem.isRelevantRun content kwargs fuel (some rs)
        = some (if rs.length = 0 then Except.ok true
                else Except.error PyExc.typeError) := by
  constructor
  · unfold NewsItem.isRelevantRun
    rw [getattrRestrictions_fuelNone]
  · have hs : getattrRestrictions content fuel (some rs) = some rs := by
      cases fuel <;> rfl
    unfold NewsItem.isRelevantRun
    rw [hs]
    by_cases hrs : rs.length = 0 <;> simp [hrs]

/-- Claim C2 (code bug): on the news file whose only declaration is
`Display-If-Profile: X`, the source never computes the claimed
profile-equality relevance: `parse` raises `NameError` at the unbound
`installedRE` on the declaration line, and `isRelevant` yields no result
for any fuel because its read of `self.restrictions` recurses. -/
theorem profileOnly_relevance_crashes (kwargs : Ctx) (fuel : Nat) :
    NewsItem.parseRun "Display-If-Profile: X\n" = .error .nameError
    ∧ NewsItem.isRelevantRun "Display-If-Profile: X\n" kwargs fuel none = none := by
  constructor
  · rfl
  · unfold NewsItem.isRelevantRun
    rw [getattrRestrictions_fuelNone]

/-- Claim C4 (code bug): `getUnreadItems` never reports the claimed
ledger line count: with `update=False` it raises `NameError` at the
unbound `UNREAD_PATH` for every world, whatever the ledger's state, and
with `update=True` the refresh runs first and its exception
propagates. -/
theorem getUnreadItemsRun_nameError (m : NewsManager) (w : World) (repoid : String) :
    m.getUnreadItemsRun w repoid false = .error (.nameError, w)
    ∧ m.getUnreadItemsRun w repoid true
        = (match m.updateNewsItemsRun w repoid with
           | .error ew => .error ew
           | .ok w1 => .error (.nameError, w1)) := by
  constructor
  · rfl
  · unfold NewsManager.getUnreadItemsRun
    rcases m.updateNewsItemsRun w repoid with ew | w1 <;> rfl

/-- Claim C5 (code bug): `NewsItem` construction never performs the
claimed validation: it raises `AttributeError` at the nonexistent
`os.path.isFile` for every world, path and cutoff - also when the path
names a regular file strictly newer than the cutoff, where the claim
demands success. -/
theorem initRun_attributeError (w : World) (p : String) (c : Int) :
    NewsItem.initRun w p c = .error .attributeError := by
  rfl

/-- Claim C6 (code bug): a candidate entry is not silently excluded - for
a registered repository with any candidate listed, the first `NewsItem`
construction raises `AttributeError`, which `except ValueError` does not
catch, so the error propagates out of the refresh (the world carried
unchanged: nothing is appended either). -/
theorem updateNewsItemsRun_construction_error (m : NewsManager) (w : World)
    (repoid e : String) (hrep : repoid ∈ w.repositories)
    (hmem : e ∈ w.listdir (repoid ++ "/" ++ m.NEWS_PATH)) :
    m.updateNewsItemsRun w repoid = .error (.attributeError, w) := by
  have hcond : ¬ (repoid ∉ w.repositories) := fun hc => hc hrep
  unfold NewsManager.updateNewsItemsRun
  rw [if_neg hcond]
  rcases hl : w.listdir (repoid ++ "/" ++ m.NEWS_PATH) with _ | ⟨a, as⟩
  · rw [hl] at hmem
    cases hmem
  · rfl

/-- Witness for claim C6 at a concrete world: the stale candidate
`2023-01-news` makes the refresh raise instead of skipping it. -/
theorem updateNewsItemsRun_construction_error_witness :
    ("gentoo" ∈ sampleWorld.repositories)
    ∧ ("2023-01-news" ∈ sampleWorld.listdir ("gentoo" ++ "/" ++ sampleManager.NEWS_PATH))
    ∧ sampleManager.updateNewsItemsRun sampleWorld "gentoo"
        = .error (.attributeError, sampleWorld) :=
  ⟨by decide, by decide,
   updateNewsItemsRun_construction_error sampleManager sampleWorld "gentoo" "2023-01-news"
     (by decide) (by decide)⟩

/-- Claim C7 (code bug): `checkRestriction` is not total across the
variants.  Properly invoked with keyword arguments, the profile and
keyword bodies do compute the claimed equality tests, but the installed
body raises `NameError` at the unbound `cpv` on every invocation instead
of querying the package database. -/
theorem checkRestrictionRun_variants (kwargs : Ctx) (p k cpv : String) :
    ((DisplayRestriction.profile p).checkRestrictionRun kwargs = .ok true
        ↔ p = kwargs.profile)
    ∧ ((DisplayRestriction.keyword k).checkRestrictionRun kwargs = .ok true
        ↔ kwargs.config "ARCH" = k)
    ∧ (DisplayRestriction.installed cpv).checkRestrictionRun kwargs
        = .error .nameError := by
  refine ⟨?_, ?_, rfl⟩ <;> simp [DisplayRestriction.checkRestrictionRun]

/-- Claim C9 (code bug): a refresh pass never performs the claimed
append: for every manager, world and repository identifier it raises
(`ValueError`, `AttributeError` from the first candidate's construction,
or `NameError` at the unbound `UNREAD_PATH`) before the ledger is opened,
carrying the world - every ledger file and the timestamp cache -
unchanged. -/
theorem updateNewsItemsRun_never_appends (m : NewsManager) (w : World) (repoid : String) :
    ∃ exc, m.updateNewsItemsRun w repoid = .error (exc, w) := by
  unfold NewsManager.updateNewsItemsRun
  by_cases h : repoid ∉ w.repositories
  · exact ⟨.valueError ("Invalid repoID: " ++ repoid), by rw [if_pos h]⟩
  · rw [if_neg h]
    rcases hl : w.listdir (repoid ++ "/" ++ m.NEWS_PATH) with _ | ⟨a, as⟩
    · exact ⟨.nameError, rfl⟩
    · exact ⟨.attributeError, rfl⟩

/-- Claim C10 (code bug): parsing never stores any captured parameter.
For a profile declaration line, with or without its terminating newline,
`parse` raises `NameError` at the unbound `installedRE` as soon as the
line's leading `"D"` passes the guard, so neither the raw capture nor the
silent unterminated-line skip is ever reached. -/
theorem parseRun_nameError_on_decl (V : String) (hV : '\n' ∉ V.data) :
    NewsItem.parseRun ("Display-If-Profile:" ++ V ++ "\n") = .error .nameError
    ∧ NewsItem.parseRun ("Display-If-Profile:" ++ V) = .error .nameError := by
  constructor
  · unfold NewsItem.parseRun
    have hr : readlines ("Display-If-Profile:" ++ V ++ "\n")
        = ["Display-If-Profile:" ++ V ++ "\n"] := by
      apply readlines_terminated_line _ ("Display-If-Profile:".data ++ V.data)
      · simp [String.data_append, nlData]
      · intro h
        rcases List.mem_append.mp h with h | h
        · exact absurd h nlNotInProf
        · exact hV h
    have hD : startsWithD ("Display-If-Profile:" ++ V ++ "\n") = true := by
      apply startsWithD_of_data _ ("isplay-If-Profile:".data ++ V.data ++ ['\n'])
      simp [String.data_append, dataProfD, nlData]
    rw [hr]
    simp [parseLinesRun, hD]
  · unfold NewsItem.parseRun
    have hr : readlines ("Display-If-Profile:" ++ V)
        = ["Display-If-Profile:" ++ V] := by
      apply readlines_unterminated_line
      · rw [data_cons_append2 _ _ 'D' "isplay-If-Profile:".data dataProfD]
        simp
      · intro h
        rw [String.data_append] at h
        rcases List.mem_append.mp h with h | h
        · exact absurd h nlNotInProf
        · exact hV h
    have hD : startsWithD ("Display-If-Profile:" ++ V) = true := by
      apply startsWithD_of_data _ ("isplay-If-Profile:".data ++ V.data)
      simp [String.data_append, dataProfD]
    rw [hr]
    simp [parseLinesRun, hD]

/-- Witness for claim C10 at the concrete parameter `" X"`. -/
theorem parseRun_nameError_on_decl_witness :
    ('\n' ∉ (" X" : String).data)
    ∧ (NewsItem.parseRun ("Display-If-Profile:" ++ " X" ++ "\n") = .error .nameError
      ∧ NewsItem.parseRun ("Display-If-Profile:" ++ " X") = .error .nameError) :=
  ⟨by decide, parseRun_nameError_on_decl " X" (by decide)⟩
